import Mathlib

/-!
Verification of the chat pipeline in `src/app.py` (Ai-Chat-Engine).

Python strings are modelled as `List Char`; the fallible external
collaborators (the LLM completion provider and the database executor)
are modelled as functions into `Except String (List Char)`.
-/

set_option autoImplicit false

namespace AiChatEngine

/-! ### Answer truncation (src/app.py line 165)

`cleaned_response = raw_response.split(".")[0] + "."` -/

/-- Model of Python `s.split(".")`: splits at every period, keeping empty
segments, and always returns a non-empty list of segments. -/
def splitOnDot : List Char → List (List Char)
  | [] => [[]]
  | c :: cs =>
    let rest := splitOnDot cs
    if c = '.' then [] :: rest
    else (c :: rest.headD []) :: rest.tail

/-- Model of src/app.py line 165: take segment 0 of the split and append a
single period. -/
def cleanResponse (raw : List Char) : List Char :=
  (splitOnDot raw).headD [] ++ ['.']

theorem splitOnDot_ne_nil (xs : List Char) : splitOnDot xs ≠ [] := by
  cases xs with
  | nil => simp [splitOnDot]
  | cons c cs =>
    simp only [splitOnDot]
    split <;> simp

theorem cleanResponse_nil : cleanResponse [] = ['.'] := rfl

theorem cleanResponse_cons_dot (cs : List Char) :
    cleanResponse ('.' :: cs) = ['.'] := by
  simp [cleanResponse, splitOnDot]

theorem cleanResponse_cons (c : Char) (cs : List Char) (h : c ≠ '.') :
    cleanResponse (c :: cs) = c :: cleanResponse cs := by
  simp [cleanResponse, splitOnDot, h]

theorem dot_not_mem_head : ∀ xs : List Char, '.' ∉ (splitOnDot xs).headD []
  | [] => by simp [splitOnDot]
  | c :: cs => by
    by_cases hc : c = '.'
    · simp [splitOnDot, hc]
    · simpa [splitOnDot, hc, Ne.symm hc] using dot_not_mem_head cs

theorem cleanResponse_of_no_dot :
    ∀ raw : List Char, '.' ∉ raw → cleanResponse raw = raw ++ ['.']
  | [], _ => rfl
  | c :: cs, h => by
    have hc : c ≠ '.' := fun hh => h (by simp [hh])
    have hcs : '.' ∉ cs := fun hm => h (List.mem_cons_of_mem _ hm)
    rw [cleanResponse_cons c cs hc, cleanResponse_of_no_dot cs hcs,
      List.cons_append]

theorem cleanResponse_decomp :
    ∀ raw : List Char, '.' ∈ raw →
      ∃ a b, raw = a ++ '.' :: b ∧ '.' ∉ a ∧ cleanResponse raw = a ++ ['.']
  | [], h => absurd h (List.not_mem_nil _)
  | c :: cs, h => by
    by_cases hc : c = '.'
    · exact ⟨[], cs, by simp [hc], List.not_mem_nil _,
        by rw [hc]; exact cleanResponse_cons_dot cs⟩
    · have hmem : '.' ∈ cs := by
        rcases List.mem_cons.mp h with h1 | h2
        · exact absurd h1.symm hc
        · exact h2
      obtain ⟨a, b, hab, hna, hclean⟩ := cleanResponse_decomp cs hmem
      refine ⟨c :: a, b, by rw [List.cons_append, hab], ?_, ?_⟩
      · intro hm
        rcases List.mem_cons.mp hm with h1 | h2
        · exact hc h1.symm
        · exact hna h2
      · rw [cleanResponse_cons c cs hc, hclean, List.cons_append]

theorem cleanResponse_append_dot :
    ∀ a : List Char, '.' ∉ a → cleanResponse (a ++ ['.']) = a ++ ['.']
  | [], _ => by simpa using cleanResponse_cons_dot []
  | c :: a, h => by
    have hc : c ≠ '.' := fun hh => h (by simp [hh])
    have ha : '.' ∉ a := fun hm => h (List.mem_cons_of_mem _ hm)
    rw [List.cons_append, cleanResponse_cons c _ hc,
      cleanResponse_append_dot a ha]

/-- C1: when the raw LLM response contains at least one period, the cleaned
answer produced by src/app.py line 165 is exactly the segment before the
first period with a single period appended, hence a leading part of the raw
response ending at its first period; the cleanup applies to every response
unconditionally. -/
theorem truncation_first_period (raw : List Char) (h : '.' ∈ raw) :
    ∃ a b, raw = a ++ '.' :: b ∧ '.' ∉ a ∧
      cleanResponse raw = a ++ ['.'] ∧ cleanResponse raw <+: raw := by
  obtain ⟨a, b, hab, hna, hclean⟩ := cleanResponse_decomp raw h
  exact ⟨a, b, hab, hna, hclean, ⟨b, by rw [hclean, hab]; simp⟩⟩

/-- Witness for C1 at raw response `"ab.cd"`. -/
theorem truncation_first_period_witness :
    '.' ∈ ['a', 'b', '.', 'c', 'd'] ∧
      ∃ a b, ['a', 'b', '.', 'c', 'd'] = a ++ '.' :: b ∧ '.' ∉ a ∧
        cleanResponse ['a', 'b', '.', 'c', 'd'] = a ++ ['.'] ∧
        cleanResponse ['a', 'b', '.', 'c', 'd'] <+: ['a', 'b', '.', 'c', 'd'] :=
  ⟨by decide, truncation_first_period ['a', 'b', '.', 'c', 'd'] (by decide)⟩

/-- C4: on a raw response with no period the split still yields a segment at
index 0 (the indexing never fails) and the cleaned answer is the whole raw
response with a single period appended. -/
theorem truncation_no_dot_total (raw : List Char) (h : '.' ∉ raw) :
    splitOnDot raw ≠ [] ∧ cleanResponse raw = raw ++ ['.'] :=
  ⟨splitOnDot_ne_nil raw, cleanResponse_of_no_dot raw h⟩

/-- Witness for C4 at raw response `"abc"`. -/
theorem truncation_no_dot_total_witness :
    '.' ∉ ['a', 'b', 'c'] ∧
      (splitOnDot ['a', 'b', 'c'] ≠ [] ∧
        cleanResponse ['a', 'b', 'c'] = ['a', 'b', 'c'] ++ ['.']) :=
  ⟨by decide, truncation_no_dot_total ['a', 'b', 'c'] (by decide)⟩

/-- C5: the cleanup of src/app.py line 165 is idempotent on responses that
contain a period: cleaning a cleaned answer changes nothing. -/
theorem truncation_idempotent (raw : List Char) (h : '.' ∈ raw) :
    cleanResponse (cleanResponse raw) = cleanResponse raw :=
  cleanResponse_append_dot ((splitOnDot raw).headD []) (dot_not_mem_head raw)

/-- Witness for C5 at raw response `"x.y"`. -/
theorem truncation_idempotent_witness :
    '.' ∈ ['x', '.', 'y'] ∧
      cleanResponse (cleanResponse ['x', '.', 'y']) =
        cleanResponse ['x', '.', 'y'] :=
  ⟨by decide, truncation_idempotent ['x', '.', 'y'] (by decide)⟩

/-- C10: every cleaned answer contains exactly one period and it is the last
character; in particular the empty raw response and any raw response starting
with a period are both cleaned to the single character `"."`. -/
theorem cleaned_single_period (raw : List Char) :
    (cleanResponse raw).count '.' = 1 ∧
      (cleanResponse raw).getLast? = some '.' ∧
      cleanResponse [] = ['.'] ∧
      ∀ cs : List Char, cleanResponse ('.' :: cs) = ['.'] := by
  refine ⟨?_, ?_, rfl, cleanResponse_cons_dot⟩
  · have h0 : ((splitOnDot raw).headD []).count '.' = 0 :=
      List.count_eq_zero.mpr (dot_not_mem_head raw)
    show ((splitOnDot raw).headD [] ++ ['.']).count '.' = 1
    rw [List.count_append, h0]
    rfl
  · simp [cleanResponse]

/-! ### External collaborators and prompt templates -/

/-- Model of the `SQLDatabase` handle used by src/app.py: `get_table_info()`
is a schema description fixed per handle and `run(sql)` is the fallible
query executor. -/
structure SQLDatabase where
  tableInfo : List Char
  run : List Char → Except String (List Char)

/-- Text of the `get_sql_chain` template (src/app.py lines 21-90) up to its
first `\x7bquestion\x7d` placeholder. -/
def sqlTemplateA : String := "
        Database Name: employee_db
        Tables:
        employee_data:
        EmpID
        First Name
        Last Name
        Start Date
        Exit Date
        Title
        Supervisor
        Email
        Business Unit
        Employee Status
        Employee Type
        Pay Zone
        Employee Classification Type
        Termination Type
        Termination Description
        Department Type
        Division Description
        DOB (Date of Birth)
        State
        Job Function
        Gender
        Location
        Race (or) Ethnicity
        Marital Status
        Performance Score
        Current Employee Rating

        employee_engagement_survey_data:
        Employee ID
        Survey Date
        Engagement Score
        Satisfaction Score
        Work-Life Balance Score

        recruitment_data:
        Applicant ID
        Application Date
        First Name
        Last Name
        Gender
        Date of Birth
        Phone Number
        Email
        Address
        City
        State
        Zip Code
        Country
        Education Level
        Years of Experience
        Desired Salary
        Job Title
        Status

        training_and_development_data:
        Employee ID
        Training Date
        Training Program Name
        Training Type
        Training Outcome
        Location
        Trainer
        Training Duration (Days)
        Training Cost

        User\x27s Question: "

/-- Text of the `get_sql_chain` template (src/app.py lines 90-113) between
its two `\x7bquestion\x7d` placeholders. -/
def sqlTemplateB : String := "

        Instructions:
        Write a SQL query based on the user\x27s question.
        Use the tables and fields mentioned above.
        Ensure that column names with spaces are enclosed in backticks (`).
        Provide only the SQL query and nothing else.
        Do not include additional text or formatting.

        Examples:
        Question: What is the average engagement score?
        SQL Query: SELECT AVG(`Engagement Score`) AS avg_engagement_score FROM employee_engagement_survey_data;

        Question: How has the average engagement score changed over time?
        SQL Query: SELECT `Survey Date`, AVG(`Engagement Score`) AS avg_engagement_score FROM employee_engagement_survey_data GROUP BY `Survey Date` ORDER BY `Survey Date`;

        Question: Show the engagement scores for all employees surveyed in the last quarter.
        SQL Query: SELECT `Employee ID`, `Engagement Score` FROM employee_engagement_survey_data WHERE `Survey Date` >= DATE(\x27now\x27, \x27-3 month\x27);

        Question: What is the range of work-life balance scores?
        SQL Query: SELECT MIN(`Work-Life Balance Score`) AS min_score, MAX(`Work-Life Balance Score`) AS max_score FROM employee_engagement_survey_data;

        Your Turn:
        Question: "

/-- Text of the `get_sql_chain` template (src/app.py lines 113-115) after
its second `\x7bquestion\x7d` placeholder. -/
def sqlTemplateC : String := "
        SQL Query:
    "

/-- Prompt produced by the synthesis chain of `get_sql_chain`
(src/app.py lines 117-129): the chain assigns `schema = db.get_table_info()`
but the template has no schema placeholder, so only the two question slots
are filled. -/
def sqlChainPrompt (db : SQLDatabase) (question : List Char) : List Char :=
  let _schema := db.tableInfo
  sqlTemplateA.data ++ question ++ sqlTemplateB.data ++ question ++
    sqlTemplateC.data

/-- Text of the `get_response` template (src/app.py lines 134-137) before the
`\x7bschema\x7d` placeholder. -/
def composeTemplateA : String := "
        You are a data analyst at a company. You are interacting with a user who is asking you questions about the company\x27s database.
        Based on the table schema below, question, sql query, and sql response, write a natural language response.
        <SCHEMA>"

/-- Text of the `get_response` template between `\x7bschema\x7d` and
`\x7bchat_history\x7d`. -/
def composeTemplateB : String := "</SCHEMA>
    
        Conversation History: "

/-- Text of the `get_response` template between `\x7bchat_history\x7d` and
`\x7bquery\x7d`. -/
def composeTemplateC : String := "
        SQL Query: <SQL>"

/-- Text of the `get_response` template between `\x7bquery\x7d` and
`\x7bquestion\x7d`. -/
def composeTemplateD : String := "</SQL>
        User question: "

/-- Text of the `get_response` template between `\x7bquestion\x7d` and
`\x7bresponse\x7d`. -/
def composeTemplateE : String := "
        SQL Response: "

/-- Text of the `get_response` template after the `\x7bresponse\x7d`
placeholder. -/
def composeTemplateF : String := "
    "

/-- Prompt produced by the composition chain of `get_response` (src/app.py
lines 145-157): all five placeholders are filled. -/
def composePrompt (schema chatHist query question response : List Char) :
    List Char :=
  composeTemplateA.data ++ schema ++ composeTemplateB.data ++ chatHist ++
    composeTemplateC.data ++ query ++ composeTemplateD.data ++ question ++
    composeTemplateE.data ++ response ++ composeTemplateF.data

/-- C8: the synthesis chain fills both question slots of its fixed template
with the question text verbatim, so the prompt sent to the LLM contains the
question unchanged as a contiguous segment. -/
theorem question_verbatim (db : SQLDatabase) (q : List Char) :
    (∃ a b c, ∀ q2 : List Char,
        sqlChainPrompt db q2 = a ++ q2 ++ b ++ q2 ++ c) ∧
      q <:+: sqlChainPrompt db q := by
  refine ⟨⟨sqlTemplateA.data, sqlTemplateB.data, sqlTemplateC.data,
    fun _ => rfl⟩, ?_⟩
  exact ⟨sqlTemplateA.data, sqlTemplateB.data ++ q ++ sqlTemplateC.data,
    by simp [sqlChainPrompt]⟩

/-- C6: the synthesis prompt is the same for any two database handles, even
ones whose schema descriptions differ, while the composition prompt embeds
the live schema description of the connected handle. -/
theorem synthesis_prompt_db_independent (q : List Char)
    (db1 db2 : SQLDatabase) (h : db1.tableInfo ≠ db2.tableInfo) :
    sqlChainPrompt db1 q = sqlChainPrompt db2 q ∧
      ∀ chatHist sql res : List Char,
        db1.tableInfo <:+: composePrompt db1.tableInfo chatHist sql q res := by
  refine ⟨rfl, fun chatHist sql res => ?_⟩
  exact ⟨composeTemplateA.data,
    composeTemplateB.data ++ chatHist ++ composeTemplateC.data ++ sql ++
      composeTemplateD.data ++ q ++ composeTemplateE.data ++ res ++
      composeTemplateF.data, by simp [composePrompt]⟩

/-- Database handle with schema description `"a"`, used as a witness. -/
def dbA : SQLDatabase := ⟨['a'], fun _ => Except.ok []⟩

/-- Database handle with schema description `"b"`, used as a witness. -/
def dbB : SQLDatabase := ⟨['b'], fun _ => Except.ok []⟩

/-- Witness for C6 at two handles with distinct schema descriptions. -/
theorem synthesis_prompt_db_independent_witness :
    dbA.tableInfo ≠ dbB.tableInfo ∧
      sqlChainPrompt dbA ['q'] = sqlChainPrompt dbB ['q'] ∧
      dbA.tableInfo <:+: composePrompt dbA.tableInfo ['h'] ['s'] ['q'] ['r'] :=
  ⟨by decide, (synthesis_prompt_db_independent ['q'] dbA dbB (by decide)).1,
    (synthesis_prompt_db_independent ['q'] dbA dbB (by decide)).2
      ['h'] ['s'] ['r']⟩

/-! ### Session state and the two-stage pipeline -/

/-- Conversation turn: `HumanMessage` or `AIMessage` (langchain messages as
used in src/app.py). -/
inductive Message where
  | human (content : List Char)
  | ai (content : List Char)

/-- Serialization of one message as Python string-formats it into the
`chat_history` slot of the composition prompt. -/
def reprMessage : Message → List Char
  | Message.human c => "HumanMessage(content=\x27".data ++ c ++ "\x27)".data
  | Message.ai c => "AIMessage(content=\x27".data ++ c ++ "\x27)".data

/-- Serialization of the message list, modelling Python `str` of a list. -/
def reprHistory (h : List Message) : List Char :=
  "[".data ++ List.intercalate ", ".data (h.map reprMessage) ++ "]".data

/-- Streamlit session state as used by src/app.py: the conversation history
and the optional database handle. -/
structure SessionState where
  chat_history : List Message
  db : Option SQLDatabase

/-- Model of `get_response` (src/app.py lines 131-167): first completion
call through the synthesis chain, execution of the produced SQL, second
completion call through the composition prompt, then the period cleanup.
The external LLM provider is the parameter `llm`. -/
def get_response (llm : List Char → Except String (List Char))
    (user_query : List Char) (db : SQLDatabase)
    (chat_history : List Message) : Except String (List Char) :=
  match llm (sqlChainPrompt db user_query) with
  | Except.error e => Except.error e
  | Except.ok query =>
    match db.run query with
    | Except.error e => Except.error e
    | Except.ok response =>
      match llm (composePrompt db.tableInfo (reprHistory chat_history)
          query user_query response) with
      | Except.error e => Except.error e
      | Except.ok raw => Except.ok (cleanResponse raw)

/-- Model of `init_database` (src/app.py lines 12-18): a successful
connection attempt yields the handle, a raised error is caught and `None`
is returned. -/
def init_database (attempt : Except String SQLDatabase) :
    Option SQLDatabase :=
  match attempt with
  | Except.ok db => some db
  | Except.error _ => none

/-- Model of the Connect button handler (src/app.py lines 271-279): on a
handle the session stores it and resets the history; otherwise the session
is left as it was. -/
def connectHandler (st : SessionState)
    (attempt : Except String SQLDatabase) : SessionState :=
  match init_database attempt with
  | some db => { st with db := some db, chat_history := [] }
  | none => st

/-- Model of the Send button handler (src/app.py lines 298-303): the human
turn is appended first, then `get_response` runs on the already-extended
history; its answer is appended on success, while a raised error leaves the
history with only the human turn added. -/
def sendHandler (llm : List Char → Except String (List Char))
    (st : SessionState) (user_query : List Char) :
    SessionState × Except String (List Char) :=
  let hist1 := st.chat_history ++ [Message.human user_query]
  match st.db with
  | none => ({ st with chat_history := hist1 },
      Except.error "AttributeError: session has no db")
  | some db =>
    match get_response llm user_query db hist1 with
    | Except.ok response =>
      ({ st with chat_history := hist1 ++ [Message.ai response] },
        Except.ok response)
    | Except.error e => ({ st with chat_history := hist1 }, Except.error e)

/-! ### Concrete fixtures used by witnesses and counterexamples -/

/-- LLM stub that always fails. -/
def llmFail : List Char → Except String (List Char) :=
  fun _ => Except.error "LLM unavailable"

/-- LLM stub that always answers `"ans"`. -/
def llmOk : List Char → Except String (List Char) :=
  fun _ => Except.ok ['a', 'n', 's']

/-- Database stub whose executor always returns `"[]"`. -/
def dbStub : SQLDatabase := ⟨['s'], fun _ => Except.ok ['[', ']']⟩

/-- Session with empty history connected to `dbStub`. -/
def st0 : SessionState := ⟨[], some dbStub⟩

/-- Session with one old assistant turn and no database handle. -/
def stC : SessionState := ⟨[Message.ai ['o', 'l', 'd']], none⟩

/-- Leading-segment test: `leadMatch t p` holds when `t` is an initial
segment of `p`. -/
def leadMatch : List Char → List Char → Bool
  | [], _ => true
  | _ :: _, [] => false
  | a :: as, b :: bs => a == b && leadMatch as bs

/-- Contiguous-segment test: `hasSeg t p` holds when `t` occurs inside `p`. -/
def hasSeg (t : List Char) : List Char → Bool
  | [] => leadMatch t []
  | c :: cs => leadMatch t (c :: cs) || hasSeg t cs

/-- Serialization of the single human turn `"hi"`, the segment the spy LLM
looks for. -/
def spyTarget : List Char := reprHistory [Message.human ['h', 'i']]

/-- LLM stub that reports whether its prompt contains `spyTarget`. -/
def spyLLM : List Char → Except String (List Char) :=
  fun p => Except.ok (if hasSeg spyTarget p then ['y'] else ['n'])

/-! ### Claims about the handlers and the pipeline -/

/-- C3: the Connect handler replaces the handle and clears the history
together when `init_database` yields a handle, and changes nothing at all
when `init_database` yields `None`; no mixed state is reachable. -/
theorem connect_atomic (st : SessionState)
    (attempt : Except String SQLDatabase) :
    (∀ db, init_database attempt = some db →
        connectHandler st attempt =
          { st with db := some db, chat_history := [] }) ∧
      (init_database attempt = none → connectHandler st attempt = st) := by
  constructor
  · intro db hdb
    simp [connectHandler, hdb]
  · intro hdb
    simp [connectHandler, hdb]

/-- Witness for C3: a successful and a failed connection attempt against a
session holding one old turn and no handle. -/
theorem connect_atomic_witness :
    connectHandler stC (Except.ok dbStub) =
        { stC with db := some dbStub, chat_history := [] } ∧
      connectHandler stC (Except.error "no route to host") = stC :=
  ⟨(connect_atomic stC (Except.ok dbStub)).1 dbStub rfl,
    (connect_atomic stC (Except.error "no route to host")).2 rfl⟩

/-- C7: `get_response` has no error handling: an error from the first
completion call, from executing the synthesized SQL, or from the second
completion call is returned to the caller unmodified. -/
theorem errors_propagate (llm : List Char → Except String (List Char))
    (q : List Char) (db : SQLDatabase) (hist : List Message) (e : String) :
    (llm (sqlChainPrompt db q) = Except.error e →
        get_response llm q db hist = Except.error e) ∧
      (∀ sql, llm (sqlChainPrompt db q) = Except.ok sql →
        db.run sql = Except.error e →
        get_response llm q db hist = Except.error e) ∧
      (∀ sql res, llm (sqlChainPrompt db q) = Except.ok sql →
        db.run sql = Except.ok res →
        llm (composePrompt db.tableInfo (reprHistory hist) sql q res) =
          Except.error e →
        get_response llm q db hist = Except.error e) := by
  refine ⟨fun h1 => ?_, fun sql h1 h2 => ?_, fun sql res h1 h2 h3 => ?_⟩
  · simp [get_response, h1]
  · simp [get_response, h1, h2]
  · simp [get_response, h1, h2, h3]

/-- Witness for C7: a failing LLM provider turns `get_response` into the
very same error. -/
theorem errors_propagate_witness :
    get_response llmFail ['q'] dbStub [] = Except.error "LLM unavailable" :=
  (errors_propagate llmFail ['q'] dbStub [] "LLM unavailable").1 rfl

/-- Counterexample to C2 as stated: pressing Send while the LLM provider
fails grows the history by exactly one entry, not two. -/
theorem history_growth_counterexample :
    ((sendHandler llmFail st0 ['h', 'i']).1.chat_history).length =
        st0.chat_history.length + 1 ∧
      ((sendHandler llmFail st0 ['h', 'i']).1.chat_history).length ≠
        st0.chat_history.length + 2 := by
  constructor
  · rfl
  · decide

/-- C2 (amended): when the pipeline returns an answer, the Send handler
appends exactly the human turn followed by the assistant turn to the
untouched previous history; when the pipeline raises, only the human turn
has been appended. -/
theorem history_growth_amended
    (llm : List Char → Except String (List Char)) (st : SessionState)
    (q : List Char) :
    (∀ db a, st.db = some db →
        get_response llm q db (st.chat_history ++ [Message.human q]) =
          Except.ok a →
        (sendHandler llm st q).1.chat_history =
          st.chat_history ++ [Message.human q, Message.ai a]) ∧
      (∀ e, (sendHandler llm st q).2 = Except.error e →
        (sendHandler llm st q).1.chat_history =
          st.chat_history ++ [Message.human q]) := by
  constructor
  · intro db a hdb hok
    simp [sendHandler, hdb, hok]
  · intro e he
    cases hdb : st.db with
    | none => simp [sendHandler, hdb]
    | some db =>
      cases hr : get_response llm q db (st.chat_history ++ [Message.human q]) with
      | error e2 => simp [sendHandler, hdb, hr]
      | ok a => simp [sendHandler, hdb, hr] at he

/-- Witness for the amended C2: a successful turn appends the human turn
`"hi"` and the assistant turn `"ans."`. -/
theorem history_growth_amended_witness :
    (sendHandler llmOk st0 ['h', 'i']).1.chat_history =
      st0.chat_history ++
        [Message.human ['h', 'i'], Message.ai ['a', 'n', 's', '.']] :=
  (history_growth_amended llmOk st0 ['h', 'i']).1 dbStub
    ['a', 'n', 's', '.'] rfl rfl

set_option maxRecDepth 40000 in
/-- Counterexample to C9 as stated: with an empty prior history, a spy LLM
that looks for the serialization of the current human turn finds it in the
composition prompt (answer `"y."`), while the same spy applied to the prompt
built from the prior history alone would answer `"n"`; the two
serializations differ. -/
theorem composer_history_counterexample :
    (sendHandler spyLLM st0 ['h', 'i']).2 = Except.ok ['y', '.'] ∧
      spyLLM (composePrompt dbStub.tableInfo (reprHistory st0.chat_history)
          ['n'] ['h', 'i'] ['[', ']']) = Except.ok ['n'] ∧
      reprHistory st0.chat_history ≠ spyTarget := by
  exact ⟨rfl, rfl, by decide⟩

/-- C9 (amended): the history serialized into the composition prompt of a
turn is the prior history with the human turn of the current question
already appended, because the Send handler appends it before invoking
`get_response`. -/
theorem composer_history_amended
    (llm : List Char → Except String (List Char)) (st : SessionState)
    (q : List Char) (db : SQLDatabase) (sql res : List Char)
    (hdb : st.db = some db)
    (h1 : llm (sqlChainPrompt db q) = Except.ok sql)
    (h2 : db.run sql = Except.ok res) :
    (sendHandler llm st q).2 =
      Except.map cleanResponse
        (llm (composePrompt db.tableInfo
          (reprHistory (st.chat_history ++ [Message.human q])) sql q res)) := by
  cases h3 : llm (composePrompt db.tableInfo
      (reprHistory (st.chat_history ++ [Message.human q])) sql q res) with
  | error e =>
    simp [sendHandler, hdb, get_response, h1, h2, h3, Except.map]
  | ok raw =>
    simp [sendHandler, hdb, get_response, h1, h2, h3, Except.map]

/-- Witness for the amended C9 with the constant LLM stub. -/
theorem composer_history_amended_witness :
    (sendHandler llmOk st0 ['h', 'i']).2 =
      Except.map cleanResponse
        (llmOk (composePrompt dbStub.tableInfo
          (reprHistory (st0.chat_history ++ [Message.human ['h', 'i']]))
          ['a', 'n', 's'] ['h', 'i'] ['[', ']'])) :=
  composer_history_amended llmOk st0 ['h', 'i'] dbStub ['a', 'n', 's']
    ['[', ']'] rfl rfl rfl

end AiChatEngine
